import Mathlib

/-!
# Verification of the grid-overlay mode controller and renderer

Shallow embedding of `src/run.cpp` (a Windows grid-overlay application).
The embedded parts are:

* the controller state: the globals `g_isResizeMode`, `g_windowRect`,
  `g_customDot`, `g_isDotSet` together with the window's visual/input
  properties set through the Win32 window API;
* the registry-backed persistence `SaveSettings` / `LoadSettings`
  (the registry key `Software\SimpleGridOverlay` is modelled as an
  optional record of the three values written there; a `RegGetValue`
  on an absent value leaves the destination variable unchanged, as the
  failing Win32 call leaves the caller's buffer untouched);
* the mode transitions `EnterResizeMode` / `ExitResizeMode` and the
  mouse/hotkey cases of `WindowProc`, packaged as a step function over
  events;
* the renderer `DrawGrid`, whose drawing calls are reified into lists of
  line positions, label cells and an optional marker-dot rectangle.
  C `float` arithmetic is modelled as exact rational arithmetic and the
  C `(int)` cast as truncation toward zero.

Machine integers (`LONG`, client coordinates) are modelled as `ℤ`; no
arithmetic in the program approaches the 32-bit range.
-/

namespace GridOverlay

/-- A Win32 `RECT`: `{left, top, right, bottom}` in screen coordinates. -/
structure Rect where
  left : ℤ
  top : ℤ
  right : ℤ
  bottom : ℤ
deriving DecidableEq, Repr

/-- A Win32 `POINT`. -/
structure Point where
  x : ℤ
  y : ℤ
deriving DecidableEq, Repr

/-- The window-level visual/input properties that `EnterResizeMode` /
`ExitResizeMode` set through `SetLayeredWindowAttributes`,
`SetWindowLongPtr` and `SetWindowText`:  `clickThrough` is the
`WS_EX_TRANSPARENT` + `LWA_COLORKEY` combination, `decorated` the
`WS_CAPTION | WS_SYSMENU | WS_SIZEBOX` styles, `alphaOpaque` the
`LWA_ALPHA` 254 setting, `title` the caption text. -/
structure WinProps where
  clickThrough : Bool
  decorated : Bool
  alphaOpaque : Bool
  title : String
deriving DecidableEq, Repr

/-- Window properties in overlay mode (set by `ExitResizeMode` and at
window creation). -/
def overlayProps : WinProps :=
  { clickThrough := true, decorated := false, alphaOpaque := false,
    title := "Grid Overlay" }

/-- Window properties in resize mode (set by `EnterResizeMode`). -/
def resizeProps : WinProps :=
  { clickThrough := false, decorated := true, alphaOpaque := true,
    title := "Resize | L-Click: Place Dot | R-Click: Remove | ESC: Lock" }

/-- The controller state: the mutable globals of `run.cpp` plus the
window properties. -/
structure St where
  isResizeMode : Bool
  windowRect : Rect
  customDot : Point
  isDotSet : Bool
  props : WinProps
deriving DecidableEq, Repr

/-- The initial values of the globals: `g_isResizeMode = false`,
`g_windowRect = {100, 100, 900, 600}`, `g_customDot = {0, 0}`,
`g_isDotSet = false`; the window is created in overlay mode. -/
def defaultState : St :=
  { isResizeMode := false
    windowRect := ⟨100, 100, 900, 600⟩
    customDot := ⟨0, 0⟩
    isDotSet := false
    props := overlayProps }

/-- The contents of the registry key `Software\SimpleGridOverlay`:
each named value is present or absent. -/
structure RegData where
  windowRect : Option Rect
  isDotSet : Option Bool
  customDot : Option Point
deriving DecidableEq, Repr

/-- A freshly created registry key with no values. -/
def emptyReg : RegData := ⟨none, none, none⟩

/-- The registry store: `none` when the key `Software\SimpleGridOverlay`
does not exist (so `RegOpenKeyEx` in `LoadSettings` fails). -/
abbrev Store := Option RegData

/-- The registry writes of `SaveSettings`: always write `windowRect`
(the rectangle captured by `GetWindowRect`) and `isDotSet`; write
`customDot` only under `if (g_isDotSet)`. `RegCreateKeyEx` creates the
key when absent. -/
def saveStore (s : St) (store : Store) : RegData :=
  let prev := store.getD emptyReg
  { windowRect := some s.windowRect
    isDotSet := some s.isDotSet
    customDot := if s.isDotSet then some s.customDot else prev.customDot }

/-- `SaveSettings`: first `GetWindowRect` refreshes `g_windowRect` from
the live window rectangle, then the three registry writes happen.
Returns the updated state and store. -/
def saveSettings (live : Rect) (s : St) (store : Store) : St × Store :=
  let s' := { s with windowRect := live }
  (s', some (saveStore s' store))

/-- `LoadSettings`: if the key is absent, `RegOpenKeyEx` fails and the
globals keep their current values. Otherwise each `RegGetValue` either
overwrites the global or, when the named value is absent, leaves it
unchanged; `customDot` is read only under `if (g_isDotSet)`, tested on
the just-loaded flag. -/
def loadSettings (store : Store) (s : St) : St :=
  match store with
  | none => s
  | some reg =>
    let rect := reg.windowRect.getD s.windowRect
    let dotSet := reg.isDotSet.getD s.isDotSet
    let dot := if dotSet then reg.customDot.getD s.customDot else s.customDot
    { s with windowRect := rect, isDotSet := dotSet, customDot := dot }

/-- `EnterResizeMode`: set `g_isResizeMode = true` and switch the window
to interactive properties. The rectangle and the dot globals are not
touched. -/
def enterResizeMode (s : St) : St :=
  { s with isResizeMode := true, props := resizeProps }

/-- `ExitResizeMode`: set `g_isResizeMode = false`, capture the live
window rectangle into `g_windowRect` via `GetWindowRect`, switch the
window to overlay properties, then call `SaveSettings` (whose own
`GetWindowRect` sees the same live rectangle). -/
def exitResizeMode (live : Rect) (s : St) (store : Store) : St × Store :=
  let s1 := { s with isResizeMode := false, windowRect := live, props := overlayProps }
  saveSettings live s1 store

/-- The events delivered to `WindowProc` that touch the controller
state. A toggle (`WM_HOTKEY` or the tray `ID_TRAY_RESIZE` command) and
Escape (`WM_KEYDOWN`) carry the live window rectangle that
`GetWindowRect` would observe; clicks carry the client coordinates
extracted from `lParam`. -/
inductive Ev where
  | toggleMode (live : Rect)
  | escapeKey (live : Rect)
  | leftClick (x y : ℤ)
  | rightClick (x y : ℤ)
deriving DecidableEq, Repr

/-- One message dispatch of `WindowProc` on the controller state and the
registry store. `WM_LBUTTONDOWN` and `WM_RBUTTONDOWN` act only under
`if (g_isResizeMode)`; the hotkey toggles between the two modes;
`WM_KEYDOWN` acts only on `VK_ESCAPE` in resize mode. -/
def step (e : Ev) (c : St × Store) : St × Store :=
  match e with
  | .toggleMode live =>
      if c.1.isResizeMode then exitResizeMode live c.1 c.2
      else (enterResizeMode c.1, c.2)
  | .escapeKey live =>
      if c.1.isResizeMode then exitResizeMode live c.1 c.2 else c
  | .leftClick x y =>
      if c.1.isResizeMode then
        ({ c.1 with customDot := ⟨x, y⟩, isDotSet := true }, c.2)
      else c
  | .rightClick _ _ =>
      if c.1.isResizeMode then ({ c.1 with isDotSet := false }, c.2) else c

/-- Dispatching a list of events in order. -/
def run (es : List Ev) (c : St × Store) : St × Store :=
  es.foldl (fun a e => step e a) c

/-- The controller right after `wWinMain` starts with no persisted data:
the globals hold their defaults and `LoadSettings` finds no key. -/
def initCtrl : St × Store := (loadSettings none defaultState, none)

/-- A state with a set marker at `(7, 8)`, used to exercise the
persistence round trip. -/
def rtState : St :=
  { isResizeMode := false
    windowRect := ⟨100, 100, 900, 600⟩
    customDot := ⟨7, 8⟩
    isDotSet := true
    props := overlayProps }

/-- A state whose marker flag is false while its stored coordinates are
`(5, 5)`: reachable by a left click at `(5, 5)` followed by a right
click in resize mode. -/
def clearedDotState : St :=
  { isResizeMode := false
    windowRect := ⟨100, 100, 900, 600⟩
    customDot := ⟨5, 5⟩
    isDotSet := false
    props := overlayProps }

theorem initCtrl_fst : initCtrl.1 = defaultState := rfl

theorem run_toggle_click_sets_dot :
    (run [Ev.toggleMode ⟨0, 0, 1, 1⟩, Ev.leftClick 5 5] initCtrl).1.isDotSet = true := by
  decide

/-- `(int)(i * cellWidth)` where `cellWidth = (float)extent / count`:
the `float` arithmetic is modelled as exact rational arithmetic, where
`i * (extent / count) = (i * extent) / count`, and the C `(int)` cast
truncates toward zero, which on that exact quotient is `Int.tdiv`.
The lemma `truncMulDiv_eq_floor` below restates it as the rational
floor when all quantities are nonnegative. -/
def truncMulDiv (i extent count : ℤ) : ℤ := Int.tdiv (i * extent) count

/-- One column label drawn by the number loop of `DrawGrid`: the 1-based
column number (formatted by `swprintf`) and the `DrawText` cell
rectangle. -/
structure Label where
  number : ℤ
  cell : Rect
deriving DecidableEq, Repr

/-- The drawing calls of one `DrawGrid` pass, reified: the x positions
of the vertical `MoveToEx`/`LineTo` pairs (each spanning y from 0 to
`height`), the y positions of the horizontal ones (spanning x from 0 to
`width`), the column labels, and the `Ellipse` bounding rectangle of the
marker dot when it is drawn. -/
structure GridOutput where
  vertXs : List ℤ
  horizYs : List ℤ
  labels : List Label
  dotRect : Option Rect
deriving DecidableEq, Repr

/-- The output of a `DrawGrid` pass that draws nothing. -/
def emptyGridOutput : GridOutput := ⟨[], [], [], none⟩

/-- `DrawGrid`, parametric in the grid constants `g_cols`/`g_rows`
(10 and 6 in the source), the client width/height returned by
`GetClientRect`, and the marker snapshot (`some g_customDot` when
`g_isDotSet`). The early `return` on a non-positive count precedes the
divisions and every drawing call, including the dot. For `i` from 1 to
`cols - 1` a vertical line is drawn at `x = (int)(i * cellWidth)` with
`cellWidth = (float)width / cols`; rows analogously. -/
def drawGrid (cols rows width height : ℤ) (dot : Option Point) : GridOutput :=
  if cols ≤ 0 ∨ rows ≤ 0 then emptyGridOutput
  else
    let vertXs := (List.range (cols - 1).toNat).map
      (fun k : ℕ => truncMulDiv ((k : ℤ) + 1) width cols)
    let horizYs := (List.range (rows - 1).toNat).map
      (fun k : ℕ => truncMulDiv ((k : ℤ) + 1) height rows)
    let labels := (List.range cols.toNat).map (fun i : ℕ =>
      { number := (i : ℤ) + 1
        cell := ⟨truncMulDiv (i : ℤ) width cols, 0,
                 truncMulDiv ((i : ℤ) + 1) width cols,
                 truncMulDiv 1 height rows⟩ })
    let dotRect := dot.map (fun p => ⟨p.x - 5, p.y - 5, p.x + 5, p.y + 5⟩)
    ⟨vertXs, horizYs, labels, dotRect⟩

theorem drawGrid_default_surface_vertXs : (drawGrid 10 6 900 600 none).vertXs =
    [90, 180, 270, 360, 450, 540, 630, 720, 810] := by decide

theorem drawGrid_narrow_surface_vertXs :
    (drawGrid 10 6 5 5 none).vertXs = [0, 1, 1, 2, 2, 3, 3, 4, 4] := by
  decide

/-! ## Renderer lemmas -/

theorem floor_intCast_div (n m : ℤ) (hm : 0 < m) :
    ⌊(n : ℚ) / (m : ℚ)⌋ = n / m := by
  rcases Int.eq_ofNat_of_zero_le hm.le with ⟨k, rfl⟩
  exact_mod_cast Rat.floor_intCast_div_natCast n k

/-- The integer form of the separator position agrees with the rational
floor `⌊i * (extent / count)⌋` whenever the inputs are nonnegative and
the count positive. -/
theorem truncMulDiv_eq_floor (i e c : ℤ) (hi : 0 ≤ i) (he : 0 ≤ e)
    (hc : 0 < c) :
    truncMulDiv i e c = ⌊(i : ℚ) * ((e : ℚ) / (c : ℚ))⌋ := by
  unfold truncMulDiv
  rw [Int.tdiv_eq_ediv (mul_nonneg hi he) hc.le,
      ← floor_intCast_div (i * e) c hc]
  congr 1
  push_cast
  ring

/-- The mapped separator positions are non-decreasing. -/
theorem truncList_pairwise (n : ℕ) (e c : ℤ) (he : 0 ≤ e) (hc : 0 < c) :
    ((List.range n).map
      (fun k : ℕ => truncMulDiv ((k : ℤ) + 1) e c)).Pairwise (· ≤ ·) := by
  refine List.Pairwise.map _ (fun a b hab => ?_) (List.pairwise_lt_range n)
  unfold truncMulDiv
  rw [Int.tdiv_eq_ediv (by positivity) hc.le,
      Int.tdiv_eq_ediv (by positivity) hc.le]
  exact Int.ediv_le_ediv hc
    (mul_le_mul_of_nonneg_right (by exact_mod_cast Nat.succ_le_succ hab.le) he)

/-- Each separator position is nonnegative, and strictly below the
surface extent when the extent is positive. -/
theorem truncList_mem_bounds (n : ℕ) (e c : ℤ) (he : 0 ≤ e) (hc : 0 < c)
    (hn : (n : ℤ) ≤ c - 1) :
    ∀ x ∈ (List.range n).map (fun k : ℕ => truncMulDiv ((k : ℤ) + 1) e c),
      0 ≤ x ∧ (0 < e → x < e) := by
  intro x hx
  simp only [List.mem_map, List.mem_range] at hx
  obtain ⟨k, hk, rfl⟩ := hx
  unfold truncMulDiv
  rw [Int.tdiv_eq_ediv (by positivity) hc.le]
  refine ⟨Int.ediv_nonneg (by positivity) hc.le, fun hepos => ?_⟩
  rw [Int.ediv_lt_iff_lt_mul hc]
  have hkc : (k : ℤ) + 1 < c := by
    have : (k : ℤ) < (n : ℤ) := by exact_mod_cast hk
    omega
  calc ((k : ℤ) + 1) * e < c * e := by
        exact mul_lt_mul_of_pos_right hkc hepos
    _ = e * c := mul_comm c e

/-! ## Controller trace lemmas -/

theorem run_nil (c : St × Store) : run [] c = c := rfl

theorem run_cons (e : Ev) (es : List Ev) (c : St × Store) :
    run (e :: es) c = run es (step e c) := rfl

/-- A single dispatch turns the dot flag on only through a left click in
resize mode. -/
theorem step_dotSet_true {c : St × Store} {e : Ev}
    (h : (step e c).1.isDotSet = true) :
    c.1.isDotSet = true ∨
      ∃ x y, e = Ev.leftClick x y ∧ c.1.isResizeMode = true := by
  cases e with
  | toggleMode live =>
    by_cases hm : c.1.isResizeMode = true <;>
      simp [step, exitResizeMode, saveSettings, enterResizeMode, hm] at h <;>
      exact Or.inl h
  | escapeKey live =>
    by_cases hm : c.1.isResizeMode = true <;>
      simp [step, exitResizeMode, saveSettings, hm] at h <;>
      exact Or.inl h
  | leftClick x y =>
    by_cases hm : c.1.isResizeMode = true
    · exact Or.inr ⟨x, y, rfl, hm⟩
    · simp [step, hm] at h
      exact Or.inl h
  | rightClick x y =>
    by_cases hm : c.1.isResizeMode = true
    · simp [step, hm] at h
    · simp [step, hm] at h
      exact Or.inl h

/-- A single dispatch turns the dot flag off only through a right click
in resize mode. -/
theorem step_dotSet_false {c : St × Store} {e : Ev}
    (hset : c.1.isDotSet = true) (h : (step e c).1.isDotSet = false) :
    (∃ x y, e = Ev.rightClick x y) ∧ c.1.isResizeMode = true := by
  cases e with
  | toggleMode live =>
    by_cases hm : c.1.isResizeMode = true <;>
      simp [step, exitResizeMode, saveSettings, enterResizeMode, hm, hset] at h
  | escapeKey live =>
    by_cases hm : c.1.isResizeMode = true <;>
      simp [step, exitResizeMode, saveSettings, hm, hset] at h
  | leftClick x y =>
    by_cases hm : c.1.isResizeMode = true <;> simp [step, hm, hset] at h
  | rightClick x y =>
    by_cases hm : c.1.isResizeMode = true
    · exact ⟨⟨x, y, rfl⟩, hm⟩
    · simp [step, hm, hset] at h

/-- Along any trace, the dot flag can only become true at a left click
dispatched in resize mode. -/
theorem run_dotSet_true :
    ∀ (es : List Ev) (c : St × Store), (run es c).1.isDotSet = true →
      c.1.isDotSet = true ∨
        ∃ es1 x y es2, es = es1 ++ Ev.leftClick x y :: es2 ∧
          (run es1 c).1.isResizeMode = true := by
  intro es
  induction es with
  | nil => exact fun c h => Or.inl h
  | cons e es ih =>
    intro c h
    rw [run_cons] at h
    rcases ih (step e c) h with hd | ⟨es1, x, y, es2, heq, hm⟩
    · rcases step_dotSet_true hd with hc | ⟨x, y, rfl, hm⟩
      · exact Or.inl hc
      · exact Or.inr ⟨[], x, y, es, rfl, hm⟩
    · refine Or.inr ⟨e :: es1, x, y, es2, by rw [heq, List.cons_append], ?_⟩
      rw [run_cons]
      exact hm

/-! ## Claim theorems -/

/-- C7: on a fresh process start with no persisted data, `LoadSettings`
finds no registry key and leaves the defaults: window geometry
`{100, 100, 900, 600}`, overlay mode, marker absent. -/
theorem C7_fresh_start_defaults :
    initCtrl.1.windowRect = ⟨100, 100, 900, 600⟩ ∧
    initCtrl.1.isResizeMode = false ∧
    initCtrl.1.isDotSet = false ∧
    initCtrl.1 = defaultState :=
  ⟨rfl, rfl, rfl, rfl⟩

/-- C8: if `columnCount ≤ 0` or `rowCount ≤ 0`, `DrawGrid` returns
before any division or drawing call: no separator lines, no labels, no
dot. -/
theorem C8_degenerate_grid_noop (cols rows width height : ℤ)
    (dot : Option Point) (h : cols ≤ 0 ∨ rows ≤ 0) :
    drawGrid cols rows width height dot = emptyGridOutput := by
  unfold drawGrid
  rw [if_pos h]

/-- Witness for C8 at `columnCount = 0`. -/
theorem C8_degenerate_grid_noop_witness :
    ((0 : ℤ) ≤ 0 ∨ (6 : ℤ) ≤ 0) ∧
    drawGrid 0 6 900 600 none = emptyGridOutput :=
  ⟨Or.inl (by decide),
   C8_degenerate_grid_noop 0 6 900 600 none (Or.inl (by decide))⟩

/-- C9: the Overlay → Resize transition is `EnterResizeMode`; it leaves
the window rectangle and the marker (coordinates and flag) unchanged,
and changes only the mode flag and the window's visual/input
properties. -/
theorem C9_enter_resize_frame (c : St × Store) (live : Rect)
    (h : c.1.isResizeMode = false) :
    step (.toggleMode live) c = (enterResizeMode c.1, c.2) ∧
    (enterResizeMode c.1).windowRect = c.1.windowRect ∧
    (enterResizeMode c.1).customDot = c.1.customDot ∧
    (enterResizeMode c.1).isDotSet = c.1.isDotSet ∧
    (enterResizeMode c.1).isResizeMode = true ∧
    (enterResizeMode c.1).props = resizeProps := by
  refine ⟨?_, rfl, rfl, rfl, rfl, rfl⟩
  simp [step, h]

/-- Witness for C9 at the default overlay state. -/
theorem C9_enter_resize_frame_witness :
    defaultState.isResizeMode = false ∧
    step (.toggleMode ⟨0, 0, 1, 1⟩) (defaultState, (none : Store))
      = (enterResizeMode defaultState, (none : Store)) :=
  ⟨rfl, (C9_enter_resize_frame (defaultState, (none : Store)) ⟨0, 0, 1, 1⟩ rfl).1⟩

/-- C10: a left or right click delivered while the controller is in
overlay mode leaves the whole controller state (mode, rectangle, marker
coordinates and flag) and the store unchanged: the `WindowProc` cases
themselves are guarded by `g_isResizeMode`. -/
theorem C10_overlay_clicks_noop (c : St × Store) (x y : ℤ)
    (h : c.1.isResizeMode = false) :
    step (.leftClick x y) c = c ∧ step (.rightClick x y) c = c := by
  constructor <;> simp [step, h]

/-- Witness for C10 at the default overlay state. -/
theorem C10_overlay_clicks_noop_witness :
    defaultState.isResizeMode = false ∧
    step (.leftClick 50 30) (defaultState, (none : Store))
      = (defaultState, (none : Store)) :=
  ⟨rfl, (C10_overlay_clicks_noop (defaultState, (none : Store)) 50 30 rfl).1⟩

/-- C6: in resize mode, `WM_LBUTTONDOWN` at `(x, y)` stores the point
and sets the flag; a subsequent `WM_RBUTTONDOWN` at any coordinates
clears the flag and leaves the stored point equal to `(x, y)`. -/
theorem C6_resize_click_marker (c : St × Store) (x y x2 y2 : ℤ)
    (h : c.1.isResizeMode = true) :
    (step (.leftClick x y) c).1.customDot = ⟨x, y⟩ ∧
    (step (.leftClick x y) c).1.isDotSet = true ∧
    (step (.rightClick x2 y2) (step (.leftClick x y) c)).1.isDotSet = false ∧
    (step (.rightClick x2 y2) (step (.leftClick x y) c)).1.customDot = ⟨x, y⟩ := by
  simp [step, h]

/-- Witness for C6: the spec scenario `LeftClickAt(50, 30)` then
`RightClickAt(7, 9)` from the resize-mode default state. -/
theorem C6_resize_click_marker_witness :
    (enterResizeMode defaultState).isResizeMode = true ∧
    (step (.leftClick 50 30)
        (enterResizeMode defaultState, (none : Store))).1.customDot = ⟨50, 30⟩ ∧
    (step (.rightClick 7 9) (step (.leftClick 50 30)
        (enterResizeMode defaultState, (none : Store)))).1.isDotSet = false :=
  ⟨rfl,
   (C6_resize_click_marker (enterResizeMode defaultState, (none : Store))
      50 30 7 9 rfl).1,
   (C6_resize_click_marker (enterResizeMode defaultState, (none : Store))
      50 30 7 9 rfl).2.2.1⟩

/-- C5: from a fresh start with no persisted data, the marker flag is
false until a left click is dispatched in resize mode (any trace that
makes it true contains such a click, with resize mode active when it
arrives); a set flag is cleared only by a right click in resize mode;
and a mode toggle never changes the flag. -/
theorem C5_marker_lifecycle :
    (∀ es : List Ev, (run es initCtrl).1.isDotSet = true →
      ∃ es1 x y es2, es = es1 ++ Ev.leftClick x y :: es2 ∧
        (run es1 initCtrl).1.isResizeMode = true) ∧
    (∀ (c : St × Store) (e : Ev), c.1.isDotSet = true →
      (step e c).1.isDotSet = false →
      (∃ x y, e = Ev.rightClick x y) ∧ c.1.isResizeMode = true) ∧
    (∀ (c : St × Store) (live : Rect),
      (step (Ev.toggleMode live) c).1.isDotSet = c.1.isDotSet) := by
  refine ⟨?_, ?_, ?_⟩
  · intro es h
    rcases run_dotSet_true es initCtrl h with hd | hx
    · exact absurd hd (by decide)
    · exact hx
  · exact fun c e hset h => step_dotSet_false hset h
  · intro c live
    by_cases hm : c.1.isResizeMode = true <;>
      simp [step, exitResizeMode, saveSettings, enterResizeMode, hm]

/-- Witness for C5: the trace toggle-then-left-click sets the flag, and
the theorem recovers the left click dispatched in resize mode. -/
theorem C5_marker_lifecycle_witness :
    (run [Ev.toggleMode ⟨0, 0, 1, 1⟩, Ev.leftClick 5 5] initCtrl).1.isDotSet
        = true ∧
    ∃ es1 x y es2,
      [Ev.toggleMode ⟨0, 0, 1, 1⟩, Ev.leftClick 5 5]
          = es1 ++ Ev.leftClick x y :: es2 ∧
      (run es1 initCtrl).1.isResizeMode = true :=
  ⟨by decide,
   C5_marker_lifecycle.1 [Ev.toggleMode ⟨0, 0, 1, 1⟩, Ev.leftClick 5 5]
     (by decide)⟩

/-- C1 counterexample: saving a valid-geometry state whose marker flag
is false and whose stored coordinates are `(5, 5)`, then loading into a
fresh process, recovers coordinates `(0, 0)`, not `(5, 5)`: the claimed
round trip fails for the coordinates when `present` is false. -/
theorem C1_roundtrip_counterexample :
    clearedDotState.customDot = ⟨5, 5⟩ ∧
    clearedDotState.windowRect.left < clearedDotState.windowRect.right ∧
    clearedDotState.windowRect.top < clearedDotState.windowRect.bottom ∧
    (loadSettings (saveSettings clearedDotState.windowRect clearedDotState
        (none : Store)).2 defaultState).customDot = ⟨0, 0⟩ ∧
    ¬ (loadSettings (saveSettings clearedDotState.windowRect clearedDotState
        (none : Store)).2 defaultState).customDot = clearedDotState.customDot := by
  decide

/-- C1 (amended): save followed by a fresh-process load recovers the
geometry and the `present` flag for every state and prior store, and the
marker coordinates exactly when `present` is true; when `present` is
false the loaded coordinates are the fresh process's default `(0, 0)`,
because `SaveSettings` does not write them and `LoadSettings` does not
read them. -/
theorem C1_save_load_roundtrip (s : St) (store : Store)
    (_hv : s.windowRect.left < s.windowRect.right ∧
           s.windowRect.top < s.windowRect.bottom) :
    (loadSettings (saveSettings s.windowRect s store).2 defaultState).windowRect
        = s.windowRect ∧
    (loadSettings (saveSettings s.windowRect s store).2 defaultState).isDotSet
        = s.isDotSet ∧
    (s.isDotSet = true →
      (loadSettings (saveSettings s.windowRect s store).2 defaultState).customDot
          = s.customDot) ∧
    (s.isDotSet = false →
      (loadSettings (saveSettings s.windowRect s store).2 defaultState).customDot
          = ⟨0, 0⟩) := by
  refine ⟨?_, ?_, fun h => ?_, fun h => ?_⟩ <;>
    simp [saveSettings, saveStore, loadSettings, defaultState, *]

/-- Witness for C1 at a valid-geometry state with the marker set at
`(7, 8)`. -/
theorem C1_save_load_roundtrip_witness :
    (rtState.windowRect.left < rtState.windowRect.right ∧
     rtState.windowRect.top < rtState.windowRect.bottom) ∧
    (loadSettings (saveSettings rtState.windowRect rtState
        (none : Store)).2 defaultState).windowRect = rtState.windowRect ∧
    (loadSettings (saveSettings rtState.windowRect rtState
        (none : Store)).2 defaultState).customDot = rtState.customDot :=
  ⟨by decide,
   (C1_save_load_roundtrip rtState (none : Store) (by decide)).1,
   (C1_save_load_roundtrip rtState (none : Store) (by decide)).2.2.1 rfl⟩

/-- C2 counterexample: one save invocation from a state with the flag
false and stored coordinates `(5, 5)` writes the flag to the store but
omits the coordinates entirely. -/
theorem C2_save_counterexample :
    (saveStore clearedDotState (none : Store)).isDotSet = some false ∧
    (saveStore clearedDotState (none : Store)).customDot = none ∧
    ¬ (saveStore clearedDotState (none : Store)).customDot
        = some clearedDotState.customDot := by
  decide

/-- C2 (amended): a save invocation always persists the `present` flag,
but persists the stored coordinates only when the flag is true; when the
flag is false the coordinate value already in the store (absent, if
never written) is left as it is. -/
theorem C2_save_marker_persistence (s : St) (store : Store) :
    (saveStore s store).isDotSet = some s.isDotSet ∧
    (s.isDotSet = true → (saveStore s store).customDot = some s.customDot) ∧
    (s.isDotSet = false →
      (saveStore s store).customDot = (store.getD emptyReg).customDot) := by
  refine ⟨rfl, fun h => ?_, fun h => ?_⟩ <;> simp [saveStore, h]

/-- Witness for C2 at the cleared-marker state over an empty store. -/
theorem C2_save_marker_persistence_witness :
    (saveStore clearedDotState (none : Store)).isDotSet = some false ∧
    (saveStore clearedDotState (none : Store)).customDot
        = ((none : Store).getD emptyReg).customDot :=
  ⟨(C2_save_marker_persistence clearedDotState (none : Store)).1,
   (C2_save_marker_persistence clearedDotState (none : Store)).2.2 rfl⟩

/-- C3 counterexample: loading a persisted degenerate rectangle
`{0, 0, 0, 0}` installs it unchanged — it is not discarded for the
default `{100, 100, 900, 600}`, and the invariant `right > left` fails
after the load. -/
theorem C3_load_validation_counterexample :
    (loadSettings (some ⟨some ⟨0, 0, 0, 0⟩, some false, none⟩)
        defaultState).windowRect = ⟨0, 0, 0, 0⟩ ∧
    ¬ (loadSettings (some ⟨some ⟨0, 0, 0, 0⟩, some false, none⟩)
        defaultState).windowRect = ⟨100, 100, 900, 600⟩ ∧
    ¬ (loadSettings (some ⟨some ⟨0, 0, 0, 0⟩, some false, none⟩)
        defaultState).windowRect.left
      < (loadSettings (some ⟨some ⟨0, 0, 0, 0⟩, some false, none⟩)
        defaultState).windowRect.right := by
  decide

/-- C3 (amended): `LoadSettings` applies no validation to the persisted
rectangle: whatever rectangle the store holds, degenerate or not,
becomes the controller's geometry unchanged, so the invariant
`right > left`, `bottom > top` need not hold after a load. -/
theorem C3_load_accepts_any_rect (reg : RegData) (s : St) (r : Rect)
    (h : reg.windowRect = some r) :
    (loadSettings (some reg) s).windowRect = r := by
  simp [loadSettings, h]

/-- Witness for C3 at the degenerate persisted rectangle
`{0, 0, 0, 0}`. -/
theorem C3_load_accepts_any_rect_witness :
    (⟨some ⟨0, 0, 0, 0⟩, some false, none⟩ : RegData).windowRect
        = some ⟨0, 0, 0, 0⟩ ∧
    (loadSettings (some ⟨some ⟨0, 0, 0, 0⟩, some false, none⟩)
        defaultState).windowRect = ⟨0, 0, 0, 0⟩ :=
  ⟨rfl,
   C3_load_accepts_any_rect ⟨some ⟨0, 0, 0, 0⟩, some false, none⟩
     defaultState ⟨0, 0, 0, 0⟩ rfl⟩

/-- C4 counterexample: with 10 columns on a surface 15 pixels wide, the
first vertical line is drawn at `x = (int)(1.5) = 1`, not at
`round(1.5) = 2`; and with a 5-pixel surface the first line sits at
`x = 0`, on the boundary rather than strictly inside, with repeated
(not strictly increasing) positions. -/
theorem C4_rounding_counterexample :
    (drawGrid 10 6 15 6 none).vertXs.head? = some 1 ∧
    round ((1 : ℚ) * ((15 : ℚ) / (10 : ℚ))) = 2 ∧
    ¬ (drawGrid 10 6 15 6 none).vertXs.head?
        = some (round ((1 : ℚ) * ((15 : ℚ) / (10 : ℚ)))) ∧
    0 ∈ (drawGrid 10 6 5 5 none).vertXs ∧
    ¬ (drawGrid 10 6 5 5 none).vertXs.Pairwise (· < ·) := by
  have h2 : round ((1 : ℚ) * ((15 : ℚ) / (10 : ℚ))) = 2 := by
    rw [round_eq]
    norm_num
  refine ⟨by decide, h2, ?_, by decide, by decide⟩
  rw [h2]
  decide

/-- C4 (amended): for positive column and row counts on a surface of
nonnegative width and height, `DrawGrid` draws exactly `cols − 1`
vertical and `rows − 1` horizontal separator lines, the vertical ones at
`x = ⌊i * cellWidth⌋` (the `(int)` cast truncates; the spec's `round` is
wrong) for `i ∈ [1, cols − 1]` and analogously horizontal; positions are
non-decreasing (not necessarily strictly increasing), each is `≥ 0`
(possibly exactly 0, so not strictly inside), and each is strictly below
the surface extent whenever that extent is positive. -/
theorem C4_separator_lines (cols rows width height : ℤ) (dot : Option Point)
    (hc : 0 < cols) (hr : 0 < rows) (hw : 0 ≤ width) (hh : 0 ≤ height) :
    (drawGrid cols rows width height dot).vertXs.length = (cols - 1).toNat ∧
    (drawGrid cols rows width height dot).horizYs.length = (rows - 1).toNat ∧
    (drawGrid cols rows width height dot).vertXs
        = (List.range (cols - 1).toNat).map
            (fun k : ℕ => ⌊((k : ℚ) + 1) * ((width : ℚ) / (cols : ℚ))⌋) ∧
    (drawGrid cols rows width height dot).horizYs
        = (List.range (rows - 1).toNat).map
            (fun k : ℕ => ⌊((k : ℚ) + 1) * ((height : ℚ) / (rows : ℚ))⌋) ∧
    (drawGrid cols rows width height dot).vertXs.Pairwise (· ≤ ·) ∧
    (drawGrid cols rows width height dot).horizYs.Pairwise (· ≤ ·) ∧
    (∀ x ∈ (drawGrid cols rows width height dot).vertXs,
      0 ≤ x ∧ (0 < width → x < width)) ∧
    (∀ y ∈ (drawGrid cols rows width height dot).horizYs,
      0 ≤ y ∧ (0 < height → y < height)) := by
  have hguard : ¬ (cols ≤ 0 ∨ rows ≤ 0) := by
    push_neg
    exact ⟨hc, hr⟩
  have hvert : (drawGrid cols rows width height dot).vertXs
      = (List.range (cols - 1).toNat).map
          (fun k : ℕ => truncMulDiv ((k : ℤ) + 1) width cols) := by
    unfold drawGrid
    rw [if_neg hguard]
  have hhoriz : (drawGrid cols rows width height dot).horizYs
      = (List.range (rows - 1).toNat).map
          (fun k : ℕ => truncMulDiv ((k : ℤ) + 1) height rows) := by
    unfold drawGrid
    rw [if_neg hguard]
  have hnc : (((cols - 1).toNat : ℤ)) ≤ cols - 1 := by
    rw [Int.toNat_of_nonneg (by omega)]
  have hnr : (((rows - 1).toNat : ℤ)) ≤ rows - 1 := by
    rw [Int.toNat_of_nonneg (by omega)]
  refine ⟨?_, ?_, ?_, ?_, ?_, ?_, ?_, ?_⟩
  · rw [hvert, List.length_map, List.length_range]
  · rw [hhoriz, List.length_map, List.length_range]
  · rw [hvert]
    refine List.map_congr_left (fun k _ => ?_)
    rw [truncMulDiv_eq_floor _ _ _ (by positivity) hw hc]
    push_cast
    ring_nf
  · rw [hhoriz]
    refine List.map_congr_left (fun k _ => ?_)
    rw [truncMulDiv_eq_floor _ _ _ (by positivity) hh hr]
    push_cast
    ring_nf
  · rw [hvert]
    exact truncList_pairwise _ _ _ hw hc
  · rw [hhoriz]
    exact truncList_pairwise _ _ _ hh hr
  · rw [hvert]
    exact truncList_mem_bounds _ _ _ hw hc hnc
  · rw [hhoriz]
    exact truncList_mem_bounds _ _ _ hh hr hnr

/-- Witness for C4 at the source's 10×6 grid on a 900×600 surface. -/
theorem C4_separator_lines_witness :
    ((0 : ℤ) < 10 ∧ (0 : ℤ) < 6 ∧ (0 : ℤ) ≤ 900 ∧ (0 : ℤ) ≤ 600) ∧
    (drawGrid 10 6 900 600 none).vertXs.length = ((10 : ℤ) - 1).toNat ∧
    (drawGrid 10 6 900 600 none).vertXs.Pairwise (· ≤ ·) :=
  ⟨⟨by decide, by decide, by decide, by decide⟩,
   (C4_separator_lines 10 6 900 600 none
      (by decide) (by decide) (by decide) (by decide)).1,
   (C4_separator_lines 10 6 900 600 none
      (by decide) (by decide) (by decide) (by decide)).2.2.2.2.1⟩

end GridOverlay
